import Mathlib

/-! # Missile controller lab: fixed-width integer semantics

A shallow embedding of `IntegerSecurity/lab/missile-controller`
(`MissileController.h`, `MissileController.cpp`, `Utils.cpp`, `main.cpp`).

* `unsigned int` is a `Nat` below `2 ^ 32`, `unsigned short` a `Nat` below `2 ^ 16`
  and `int` an `Int` between `-2 ^ 31` and `2 ^ 31 - 1`.
* Unsigned arithmetic and conversions to an unsigned type reduce the exact result
  modulo `2 ^ 32` (or `2 ^ 16`) explicitly.
* Signed `int` arithmetic is exact; that its results fit an `int` (no signed overflow) is
  proved where it is used.
* The streams `std::cout` and `std::cerr` are the lists of lines an operation writes.
-/

/-! ## Machine integers -/

namespace Cxx

/-- The values an `unsigned int` can hold. -/
def isUInt (n : Nat) : Prop := n < 4294967296

/-- The values an `unsigned short` can hold. -/
def isUShort (n : Nat) : Prop := n < 65536

/-- The values an `int` can hold. -/
def isInt (i : Int) : Prop := -2147483648 ≤ i ∧ i ≤ 2147483647

instance (n : Nat) : Decidable (isUInt n) := by unfold isUInt; infer_instance

instance (n : Nat) : Decidable (isUShort n) := by unfold isUShort; infer_instance

instance (i : Int) : Decidable (isInt i) := by unfold isInt; infer_instance

/-- Conversion of an integer value to `unsigned int`: the value modulo `2 ^ 32`. -/
def toUInt (i : Int) : Nat := (i % 4294967296).toNat

/-- Conversion of an integer value to `unsigned short`: the value modulo `2 ^ 16`. -/
def toUShort (i : Int) : Nat := (i % 65536).toNat

/-- The operator `a - b` on `unsigned int`: the exact difference modulo `2 ^ 32`. -/
def usub (a b : Nat) : Nat := toUInt ((a : Int) - (b : Int))

/-- The operator `a * b` on `unsigned int`: the exact product modulo `2 ^ 32`. -/
def umul (a b : Nat) : Nat := toUInt ((a : Int) * (b : Int))

end Cxx

/-! ## Utils.cpp -/

namespace Utils

/-- The function `calculateWarheadMemory`: `return count * 8;` on `unsigned int`. -/
def calculateWarheadMemory (count : Nat) : Nat := Cxx.umul count 8

/-- The function `priorityToCode`: `return static_cast<unsigned int>(priorityLevel);`. -/
def priorityToCode (priorityLevel : Int) : Nat := Cxx.toUInt priorityLevel

/-- The function `adjustDistance`: `return static_cast<unsigned short>(distanceMeters);`. -/
def adjustDistance (distanceMeters : Nat) : Nat := Cxx.toUShort (distanceMeters : Int)

end Utils

/-! ## MissileController.h -/

/-- The struct `Target`: `int id; unsigned int distanceMeters; signed int priorityLevel;`. -/
structure Target where
  id : Int
  distanceMeters : Nat
  priorityLevel : Int
deriving DecidableEq, Repr

/-- The private state of the class `MissileController`. `warheadBuffer` is a pointer:
`none` is `nullptr`, `some a` the address of block `a` of `freeStore`. `freeStore` is the
part of the free store this object has obtained with `new char[...]`, one entry per block
in allocation order; an entry is `some bytes` while the block is live and `none` once it
has been released with `delete[]`. -/
structure MissileController where
  targets : List Target
  warheadBuffer : Option Nat
  warheadBufferSize : Nat
  freeStore : List (Option (List Nat))
deriving DecidableEq, Repr

/-- What one iteration of the loop of `processTargets` computes for its target:
`target.id` and the locals `statusCode`, `dist` and `finalDist`. -/
structure EngagementReport where
  id : Int
  statusCode : Nat
  truncatedDistance : Nat
  finalDistance : Nat
deriving DecidableEq, Repr

/-- Outcome of `addTarget`: the returned `bool`, the lines written to `std::cerr`, and
the object afterwards. -/
structure AddTargetResult where
  ret : Bool
  cerr : List String
  self : MissileController

/-- Outcome of `allocateWarheadBuffer`: the lines written to `std::cout`, and the object
afterwards. -/
structure AllocateResult where
  cout : List String
  self : MissileController

/-- Outcome of `engageTargets`: the per-target values in loop order, the lines written
to `std::cout`, and the object afterwards. -/
structure EngageResult where
  reports : List EngagementReport
  cout : List String
  self : MissileController

/-! ## MissileController.cpp -/

namespace MissileController

/-- The constructor: `warheadBuffer(nullptr), warheadBufferSize(0)`, and `targets`
default-constructed empty. Nothing has been allocated yet. -/
def ctor : MissileController :=
  { targets := [], warheadBuffer := none, warheadBufferSize := 0, freeStore := [] }

/-- The destructor: `if (warheadBuffer) delete[] warheadBuffer;`. Returns the free store
afterwards. -/
def dtor (self : MissileController) : List (Option (List Nat)) :=
  match self.warheadBuffer with
  | some a => self.freeStore.set a none
  | none => self.freeStore

/-- The bytes `warheadBuffer` points to: the block at its address while that block is
live, and `none` when the pointer is `nullptr` or the block has been released. -/
def warheadBytes (self : MissileController) : Option (List Nat) :=
  match self.warheadBuffer with
  | none => none
  | some a => self.freeStore.getD a none

/-- The number of blocks of a free store that are live (obtained with `new char[...]` and
not released with `delete[]`). -/
def liveBlocks (freeStore : List (Option (List Nat))) : Nat :=
  (freeStore.filter Option.isSome).length

/-- The member function `addTarget`. -/
def addTarget (self : MissileController) (id : Int) (distance : Nat) (priority : Int) :
    AddTargetResult :=
  if priority < 0 ∧ priority > 10 then
    { ret := false, cerr := ["Invalid priority level\n"], self := self }
  else
    let adjustedDistance := Cxx.usub distance 1000
    if adjustedDistance > 5000 then
      { ret := false, cerr := ["Target out of range\n"], self := self }
    else
      { ret := true, cerr := [],
        self := { self with targets := self.targets ++ [Target.mk id distance priority] } }

/-- The member function `allocateWarheadBuffer`. The size is recorded first; then
`new char[warheadBufferSize]` yields a fresh block whose address overwrites
`warheadBuffer`, and `memset` fills the block with zeros. The allocation is taken to
succeed. -/
def allocateWarheadBuffer (self : MissileController) (warheadCount : Nat) : AllocateResult :=
  let size := Utils.calculateWarheadMemory warheadCount
  { cout := ["Allocating warhead buffer of size: " ++ toString size ++ "\n"],
    self :=
      { self with
        warheadBufferSize := size,
        warheadBuffer := some self.freeStore.length,
        freeStore := self.freeStore ++ [some (List.replicate size 0)] } }

/-- The body of the loop of `processTargets` for one target. The sum `dist + 65000` is
computed in `int` after integral promotion of `dist` (it fits an `int`, see
`Cxx.isInt_promoted_add`), then converted to `unsigned short`. -/
def processTarget (target : Target) : EngagementReport :=
  let statusCode := Utils.priorityToCode target.priorityLevel
  let dist := Utils.adjustDistance target.distanceMeters
  let finalDist := Cxx.toUShort ((dist : Int) + 65000)
  { id := target.id, statusCode := statusCode, truncatedDistance := dist,
    finalDistance := finalDist }

/-- The two lines one iteration of the loop of `processTargets` writes to `std::cout`. -/
def reportLines (r : EngagementReport) : List String :=
  ["Target " ++ toString r.id ++ " status code: " ++ toString r.statusCode ++ "\n",
   "Final Distance (wrap-around): " ++ toString r.finalDistance ++ "\n"]

/-- The loop `for (const auto& target : targets)` of `processTargets`, front to back. -/
def processLoop : List Target → List EngagementReport
  | [] => []
  | target :: rest => processTarget target :: processLoop rest

/-- The lines written by the whole loop, in order. -/
def printReports : List EngagementReport → List String
  | [] => []
  | r :: rs => reportLines r ++ printReports rs

/-- The member function `processTargets`. -/
def processTargets (self : MissileController) : EngageResult :=
  let rs := processLoop self.targets
  { reports := rs, cout := printReports rs, self := self }

/-- The member function `engageTargets`: `processTargets();`. -/
def engageTargets (self : MissileController) : EngageResult :=
  processTargets self

end MissileController

/-! ## Call sequences -/

/-- One call of a public member function, with its arguments. -/
inductive Call where
  | addTarget (id : Int) (distance : Nat) (priority : Int)
  | allocateWarheadBuffer (warheadCount : Nat)
  | engageTargets
deriving DecidableEq, Repr

/-- The arguments of a call hold values of their C++ parameter types. -/
def Call.WellTyped : Call → Prop
  | .addTarget id distance priority => Cxx.isInt id ∧ Cxx.isUInt distance ∧ Cxx.isInt priority
  | .allocateWarheadBuffer warheadCount => Cxx.isUInt warheadCount
  | .engageTargets => True

instance (k : Call) : Decidable k.WellTyped := by
  cases k <;> unfold Call.WellTyped <;> infer_instance

/-- Whether the call is a call of `allocateWarheadBuffer`. -/
def Call.isAllocate : Call → Bool
  | .allocateWarheadBuffer _ => true
  | _ => false

namespace MissileController

/-- The object after one call. -/
def call (self : MissileController) : Call → MissileController
  | .addTarget id distance priority => (addTarget self id distance priority).self
  | .allocateWarheadBuffer warheadCount => (allocateWarheadBuffer self warheadCount).self
  | .engageTargets => (engageTargets self).self

/-- The object after a sequence of calls, made in order. -/
def run (self : MissileController) : List Call → MissileController
  | [] => self
  | k :: ks => run (call self k) ks

/-- Every stored target has an `unsigned int` distance that passes the range test of
`addTarget`. -/
def Validated (self : MissileController) : Prop :=
  ∀ t ∈ self.targets, Cxx.isUInt t.distanceMeters ∧ Cxx.usub t.distanceMeters 1000 ≤ 5000

/-- The calls `main` makes on its controller, in order; `UINT_MAX / 2` is `2147483647`. -/
def mainCalls : List Call :=
  [.addTarget 1 800 5, .addTarget 2 1500 (-5), .addTarget 3 3000 7,
   .allocateWarheadBuffer 2147483647, .engageTargets]

end MissileController

/-! ## Properties -/

open MissileController

/-! ### Conversions and operators in closed form -/

theorem Cxx.toUInt_natCast (n : Nat) : Cxx.toUInt (n : Int) = n % 4294967296 := by
  unfold Cxx.toUInt; omega

theorem Cxx.toUShort_natCast (n : Nat) : Cxx.toUShort (n : Int) = n % 65536 := by
  unfold Cxx.toUShort; omega

theorem Cxx.umul_eight (n : Nat) : Cxx.umul n 8 = (n * 8) % 4294967296 := by
  unfold Cxx.umul Cxx.toUInt; omega

theorem Cxx.usub_thousand_of_ge (d : Nat) (hd : d < 4294967296) (h : 1000 ≤ d) :
    Cxx.usub d 1000 = d - 1000 := by
  unfold Cxx.usub Cxx.toUInt; omega

theorem Cxx.usub_thousand_of_lt (d : Nat) (h : d < 1000) :
    Cxx.usub d 1000 = d + 4294967296 - 1000 := by
  unfold Cxx.usub Cxx.toUInt; omega

theorem MissileController.not_priority_guard (priority : Int) :
    ¬ (priority < 0 ∧ priority > 10) := by omega

/-- The returned `bool` of `addTarget` is the negation of the range test alone. -/
theorem MissileController.addTarget_ret (self : MissileController) (id : Int) (distance : Nat)
    (priority : Int) :
    (addTarget self id distance priority).ret = !decide (Cxx.usub distance 1000 > 5000) := by
  unfold addTarget
  rw [if_neg (not_priority_guard priority)]
  by_cases h : Cxx.usub distance 1000 > 5000 <;> simp [h]

/-- The object after `addTarget`, by the outcome of the range test alone. -/
theorem MissileController.addTarget_self (self : MissileController) (id : Int) (distance : Nat)
    (priority : Int) :
    (addTarget self id distance priority).self =
      if Cxx.usub distance 1000 > 5000 then self
      else { self with targets := self.targets ++ [Target.mk id distance priority] } := by
  unfold addTarget
  rw [if_neg (not_priority_guard priority)]
  by_cases h : Cxx.usub distance 1000 > 5000 <;> simp [h]

/-- For an `unsigned int` distance the range test of `addTarget` passes exactly on
`[1000, 6000]`. -/
theorem MissileController.addTarget_accepts_iff (self : MissileController)
    (id : Int) (distance : Nat) (priority : Int) (hd : Cxx.isUInt distance) :
    (addTarget self id distance priority).ret = true ↔ 1000 ≤ distance ∧ distance ≤ 6000 := by
  unfold Cxx.isUInt at hd
  rw [addTarget_ret]
  by_cases h : 1000 ≤ distance
  · rw [Cxx.usub_thousand_of_ge distance hd h]; simp; omega
  · rw [Cxx.usub_thousand_of_lt distance (by omega)]; simp; omega

/-! ### Target registry -/

/-- C1: for an `unsigned int` distance (any id, any priority), `addTarget` returns true
exactly when `1000 <= distance <= 6000`. Below 1000 the difference `distance - 1000`
wraps to `distance + 2^32 - 1000`, which is above 5000, and the call returns false; above
6000 the call returns false as well. -/
theorem MissileController.addTarget_true_iff_in_range (self : MissileController) (id : Int)
    (distance : Nat) (priority : Int) (hd : Cxx.isUInt distance) :
    ((addTarget self id distance priority).ret = true ↔ 1000 ≤ distance ∧ distance ≤ 6000)
    ∧ (distance < 1000 →
        Cxx.usub distance 1000 = distance + 4294967296 - 1000
        ∧ 5000 < Cxx.usub distance 1000
        ∧ (addTarget self id distance priority).ret = false)
    ∧ (6000 < distance → (addTarget self id distance priority).ret = false) := by
  unfold Cxx.isUInt at hd
  rw [addTarget_ret]
  refine ⟨?_, ?_, ?_⟩
  · rw [← addTarget_ret]
    exact addTarget_accepts_iff self id distance priority hd
  · intro h
    rw [Cxx.usub_thousand_of_lt distance h]
    refine ⟨rfl, by omega, ?_⟩
    simp
  · intro h
    rw [Cxx.usub_thousand_of_ge distance hd (by omega)]
    simp; omega

/-- Instance of C1 at the first call of `main`, `addTarget(1, 800, 5)`, and at
`addTarget(9, 7000, 5)`. -/
theorem MissileController.addTarget_true_iff_in_range_witness :
    Cxx.isUInt 800 ∧ Cxx.usub 800 1000 = 4294967096
    ∧ (addTarget ctor 1 800 5).ret = false ∧ (addTarget ctor 9 7000 5).ret = false :=
  ⟨by decide,
   ((addTarget_true_iff_in_range ctor 1 800 5 (by decide)).2.1 (by decide)).1,
   ((addTarget_true_iff_in_range ctor 1 800 5 (by decide)).2.1 (by decide)).2.2,
   (addTarget_true_iff_in_range ctor 9 7000 5 (by decide)).2.2 (by decide)⟩

/-- C4: when `addTarget` returns true the target sequence afterwards is the previous
sequence followed by the one new element `Target{id, distance, priority}`; when it
returns false the target sequence is the previous one. -/
theorem MissileController.addTarget_appends_or_keeps (self : MissileController) (id : Int)
    (distance : Nat) (priority : Int) :
    ((addTarget self id distance priority).ret = true →
        (addTarget self id distance priority).self.targets
          = self.targets ++ [Target.mk id distance priority])
    ∧ ((addTarget self id distance priority).ret = false →
        (addTarget self id distance priority).self.targets = self.targets) := by
  rw [addTarget_ret, addTarget_self]
  by_cases h : Cxx.usub distance 1000 > 5000 <;> simp [h]

/-- Instance of C4 at two calls of `main` made on a controller that already holds a
target: `addTarget(3, 3000, 7)` is accepted and `addTarget(1, 800, 5)` is rejected. -/
theorem MissileController.addTarget_appends_or_keeps_witness :
    (addTarget (addTarget ctor 2 1500 (-5)).self 3 3000 7).self.targets
        = [Target.mk 2 1500 (-5), Target.mk 3 3000 7]
    ∧ (addTarget (addTarget ctor 2 1500 (-5)).self 1 800 5).self.targets
        = [Target.mk 2 1500 (-5)] :=
  ⟨(addTarget_appends_or_keeps (addTarget ctor 2 1500 (-5)).self 3 3000 7).1 (by decide),
   (addTarget_appends_or_keeps (addTarget ctor 2 1500 (-5)).self 1 800 5).2 (by decide)⟩

/-! ### Warhead allocator -/

/-- C2: after `allocateWarheadBuffer(count)` the recorded buffer size is
`(count * 8) mod 2^32`; `count = 10` records 80 and `count = 536870912` records 0. -/
theorem MissileController.allocateWarheadBuffer_size (self : MissileController) (count : Nat) :
    (allocateWarheadBuffer self count).self.warheadBufferSize = (count * 8) % 4294967296
    ∧ (allocateWarheadBuffer self 10).self.warheadBufferSize = 80
    ∧ (allocateWarheadBuffer self 536870912).self.warheadBufferSize = 0 := by
  simp only [allocateWarheadBuffer, Utils.calculateWarheadMemory, Cxx.umul_eight]
  exact ⟨trivial, by decide, by decide⟩

/-- C3: the size recorded by `allocateWarheadBuffer(count)` is strictly below the
intended `count * 8` exactly when `count > 536870911`, and equals `count * 8` for every
`count <= 536870911`. In `main`, `count = UINT_MAX / 2 = 2147483647` records 4294967288,
below the intended 17179869176. -/
theorem MissileController.allocateWarheadBuffer_wraps_short_iff (self : MissileController)
    (count : Nat) :
    ((allocateWarheadBuffer self count).self.warheadBufferSize < count * 8
        ↔ count > 536870911)
    ∧ (count ≤ 536870911 →
        (allocateWarheadBuffer self count).self.warheadBufferSize = count * 8)
    ∧ (allocateWarheadBuffer self 2147483647).self.warheadBufferSize = 4294967288
    ∧ 2147483647 * 8 = 17179869176
    ∧ 4294967288 < 17179869176 := by
  simp only [allocateWarheadBuffer, Utils.calculateWarheadMemory, Cxx.umul_eight]
  refine ⟨by omega, by omega, by decide, by decide, by decide⟩

/-- Instance of C3 at `count = 536870911`, the largest count whose size is exact. -/
theorem MissileController.allocateWarheadBuffer_wraps_short_iff_witness :
    536870911 ≤ 536870911
    ∧ (allocateWarheadBuffer ctor 536870911).self.warheadBufferSize = 536870911 * 8 :=
  ⟨by decide, (allocateWarheadBuffer_wraps_short_iff ctor 536870911).2.1 (by decide)⟩

/-! ### Engagement processing -/

/-- The promoted sum `dist + 65000` fits an `int` for every `unsigned short` value
`dist`, in particular for every result of `adjustDistance`: no signed overflow. -/
theorem Cxx.isInt_promoted_add (d : Nat) :
    Cxx.isInt (((Utils.adjustDistance d : Nat) : Int) + 65000) := by
  unfold Cxx.isInt Utils.adjustDistance Cxx.toUShort; omega

theorem Cxx.toUShort_promoted_add (d : Nat) :
    Cxx.toUShort (((d % 65536 : Nat) : Int) + 65000) = (d % 65536 + 65000) % 65536 := by
  unfold Cxx.toUShort; omega

/-- The loop body in closed form. -/
theorem MissileController.processTarget_eq (t : Target) :
    processTarget t =
      { id := t.id, statusCode := Cxx.toUInt t.priorityLevel,
        truncatedDistance := t.distanceMeters % 65536,
        finalDistance := (t.distanceMeters % 65536 + 65000) % 65536 } := by
  simp only [processTarget, Utils.priorityToCode, Utils.adjustDistance, Cxx.toUShort_natCast,
    Cxx.toUShort_promoted_add]

/-- The loop applies its body to each target, in order. -/
theorem MissileController.processLoop_eq_map (ts : List Target) :
    processLoop ts = ts.map processTarget := by
  induction ts with
  | nil => rfl
  | cons t rest ih => simp only [processLoop, List.map_cons, ih]

theorem MissileController.length_printReports (rs : List EngagementReport) :
    (printReports rs).length = 2 * rs.length := by
  induction rs with
  | nil => rfl
  | cons r rest ih =>
    simp only [printReports, reportLines, List.length_append, List.length_cons,
      List.length_nil, ih]
    omega

theorem MissileController.engageTargets_reports (self : MissileController) :
    (engageTargets self).reports = self.targets.map processTarget := by
  simp only [engageTargets, processTargets, processLoop_eq_map]

theorem MissileController.engageTargets_self (self : MissileController) :
    (engageTargets self).self = self := rfl

/-- Every relation that holds between a target and the result of the loop body on it
holds between the stored targets and the reports of `engageTargets`, position by
position. -/
theorem MissileController.engageTargets_forall₂ (self : MissileController)
    (R : Target → EngagementReport → Prop) (h : ∀ t ∈ self.targets, R t (processTarget t)) :
    List.Forall₂ R self.targets (engageTargets self).reports := by
  rw [engageTargets_reports, List.forall₂_map_right_iff, List.forall₂_same]
  exact h

/-- C5: `engageTargets` reports, for every stored target (with an `int` priority), the
status code `priorityLevel` when `priorityLevel >= 0` and `priorityLevel + 2^32` when
`priorityLevel < 0`, target by target in order; a stored target of priority `-5` is
reported with status code 4294967291. -/
theorem MissileController.engageTargets_statusCode (self : MissileController)
    (hp : ∀ t ∈ self.targets, Cxx.isInt t.priorityLevel) :
    List.Forall₂
        (fun t r => (r.statusCode : Int)
          = if 0 ≤ t.priorityLevel then t.priorityLevel else t.priorityLevel + 4294967296)
        self.targets (engageTargets self).reports
    ∧ Utils.priorityToCode (-5) = 4294967291
    ∧ (engageTargets (addTarget ctor 2 1500 (-5)).self).reports.map
        EngagementReport.statusCode = [4294967291] := by
  refine ⟨engageTargets_forall₂ self _ fun t ht => ?_, by decide, by decide⟩
  have hpt := hp t ht
  unfold Cxx.isInt at hpt
  rw [processTarget_eq]
  show ((Cxx.toUInt t.priorityLevel : Nat) : Int) = _
  unfold Cxx.toUInt
  split <;> omega

/-- Instance of C5 at the controller of `main` after its `addTarget` calls. -/
theorem MissileController.engageTargets_statusCode_witness :
    (∀ t ∈ (addTarget (addTarget ctor 2 1500 (-5)).self 3 3000 7).self.targets,
        Cxx.isInt t.priorityLevel)
    ∧ List.Forall₂
        (fun t r => (r.statusCode : Int)
          = if 0 ≤ t.priorityLevel then t.priorityLevel else t.priorityLevel + 4294967296)
        (addTarget (addTarget ctor 2 1500 (-5)).self 3 3000 7).self.targets
        (engageTargets (addTarget (addTarget ctor 2 1500 (-5)).self 3 3000 7).self).reports :=
  ⟨by decide,
   (engageTargets_statusCode (addTarget (addTarget ctor 2 1500 (-5)).self 3 3000 7).self
      (by decide)).1⟩

/-- C6: `Utils::adjustDistance` returns `distanceMeters mod 65536`, the low 16 bits (an
`unsigned short` value, neither rounded nor saturated), and that is the truncated
distance `engageTargets` computes for every stored target; `distanceMeters = 70000`
gives 4464. -/
theorem MissileController.engageTargets_truncatedDistance (self : MissileController)
    (distanceMeters : Nat) :
    Utils.adjustDistance distanceMeters = distanceMeters % 65536
    ∧ Cxx.isUShort (Utils.adjustDistance distanceMeters)
    ∧ List.Forall₂ (fun t r => r.truncatedDistance = t.distanceMeters % 65536)
        self.targets (engageTargets self).reports
    ∧ Utils.adjustDistance 70000 = 4464
    ∧ (engageTargets { self with targets := [Target.mk 9 70000 5] }).reports.map
        EngagementReport.truncatedDistance = [4464] := by
  refine ⟨Cxx.toUShort_natCast distanceMeters, ?_,
    engageTargets_forall₂ self _ fun t _ => ?_, by decide, rfl⟩
  · unfold Cxx.isUShort Utils.adjustDistance Cxx.toUShort; omega
  · rw [processTarget_eq]

/-- C7: for every stored target `engageTargets` computes the final distance
`(truncatedDistance + 65000) mod 65536` with `truncatedDistance = distanceMeters mod 65536`;
the sum is formed in `int`, where it never overflows, and narrowing it to
`unsigned short` gives that value. `distanceMeters = 70000` gives 3928. -/
theorem MissileController.engageTargets_finalDistance (self : MissileController) :
    List.Forall₂
        (fun t r => r.truncatedDistance = t.distanceMeters % 65536
          ∧ Cxx.isInt ((r.truncatedDistance : Int) + 65000)
          ∧ r.finalDistance = Cxx.toUShort ((r.truncatedDistance : Int) + 65000)
          ∧ r.finalDistance = (r.truncatedDistance + 65000) % 65536)
        self.targets (engageTargets self).reports
    ∧ (processTarget (Target.mk 9 70000 5)).finalDistance = 3928
    ∧ (engageTargets { self with targets := [Target.mk 9 70000 5] }).reports.map
        EngagementReport.finalDistance = [3928] := by
  refine ⟨engageTargets_forall₂ self _ fun t _ => ?_, by decide, rfl⟩
  have h := Cxx.isInt_promoted_add t.distanceMeters
  rw [Utils.adjustDistance, Cxx.toUShort_natCast] at h
  rw [processTarget_eq]
  exact ⟨rfl, h, (Cxx.toUShort_promoted_add t.distanceMeters).symm, rfl⟩

/-- C8: in every state `engageTargets` yields as many reports as there are stored targets,
the report at each position carries the id of the target at that position, and two lines
are printed per target; with no stored target there is no report. The operation has a
result in every state, and the one signed sum it forms never overflows. -/
theorem MissileController.engageTargets_one_report_per_target (self : MissileController) :
    (engageTargets self).reports.length = self.targets.length
    ∧ List.Forall₂ (fun t r => r.id = t.id) self.targets (engageTargets self).reports
    ∧ (∀ i : Nat, ((engageTargets self).reports[i]?).map EngagementReport.id
        = (self.targets[i]?).map Target.id)
    ∧ (engageTargets self).cout.length = 2 * self.targets.length
    ∧ (engageTargets { self with targets := [] }).reports = []
    ∧ (engageTargets { self with targets := [] }).cout = []
    ∧ (∀ t ∈ self.targets,
        Cxx.isInt (((Utils.adjustDistance t.distanceMeters : Nat) : Int) + 65000)) := by
  refine ⟨?_, engageTargets_forall₂ self _ fun t _ => rfl, ?_, ?_, rfl, rfl,
    fun t _ => Cxx.isInt_promoted_add t.distanceMeters⟩
  · rw [engageTargets_reports, List.length_map]
  · intro i
    rw [engageTargets_reports, List.getElem?_map]
    cases self.targets[i]? <;> rfl
  · show (printReports (engageTargets self).reports).length = _
    rw [length_printReports, engageTargets_reports, List.length_map]

/-! ### Reachable states -/

theorem MissileController.validated_ctor : ctor.Validated := by
  intro t ht
  cases ht

theorem MissileController.validated_call (self : MissileController) (k : Call)
    (hk : k.WellTyped) (h : self.Validated) : (call self k).Validated := by
  cases k with
  | addTarget id distance priority =>
    show (addTarget self id distance priority).self.Validated
    rw [addTarget_self]
    split
    · exact h
    · rename_i hr
      intro t ht
      rcases List.mem_append.mp ht with ht | ht
      · exact h t ht
      · rw [List.mem_singleton] at ht
        subst ht
        exact ⟨hk.2.1, Nat.le_of_not_lt hr⟩
  | allocateWarheadBuffer warheadCount => exact h
  | engageTargets => exact h

theorem MissileController.validated_run (calls : List Call) :
    ∀ self : MissileController, self.Validated → (∀ k ∈ calls, k.WellTyped) →
      (run self calls).Validated := by
  induction calls with
  | nil => intro self h _; exact h
  | cons k ks ih =>
    intro self h hk
    exact ih (call self k)
      (validated_call self k (hk k (List.mem_cons_self _ _)) h)
      (fun j hj => hk j (List.mem_cons_of_mem _ hj))

/-- C9: in the state reached from a freshly constructed controller by any finite
sequence of `addTarget`, `allocateWarheadBuffer` and `engageTargets` calls (with
arguments of their C++ types), every stored target satisfies
`(distanceMeters - 1000) mod 2^32 <= 5000`, that is `1000 <= distanceMeters <= 6000`, and
`addTarget` returns true on its three fields in every state. -/
theorem MissileController.run_targets_validated (calls : List Call)
    (hcalls : ∀ k ∈ calls, k.WellTyped) :
    ∀ t ∈ (run ctor calls).targets,
      Cxx.usub t.distanceMeters 1000 ≤ 5000
      ∧ 1000 ≤ t.distanceMeters ∧ t.distanceMeters ≤ 6000
      ∧ ∀ s : MissileController,
          (addTarget s t.id t.distanceMeters t.priorityLevel).ret = true := by
  intro t ht
  obtain ⟨hu, hr⟩ := validated_run calls ctor validated_ctor hcalls t ht
  have hiff := fun s =>
    (addTarget_accepts_iff s t.id t.distanceMeters t.priorityLevel hu)
  have hs : ∀ s : MissileController,
      (addTarget s t.id t.distanceMeters t.priorityLevel).ret = true := by
    intro s
    rw [addTarget_ret]
    simpa using hr
  have hrange := (hiff ctor).mp (hs ctor)
  exact ⟨hr, hrange.1, hrange.2, hs⟩

/-- Instance of C9 at the calls of `main` and the target of id 2 they store. -/
theorem MissileController.run_targets_validated_witness :
    (∀ k ∈ mainCalls, k.WellTyped)
    ∧ Target.mk 2 1500 (-5) ∈ (run ctor mainCalls).targets
    ∧ Cxx.usub 1500 1000 ≤ 5000 ∧ 1000 ≤ 1500 ∧ 1500 ≤ 6000
    ∧ (addTarget ctor 2 1500 (-5)).ret = true :=
  ⟨by decide, by decide,
   (run_targets_validated mainCalls (by decide) (Target.mk 2 1500 (-5)) (by decide)).1,
   (run_targets_validated mainCalls (by decide) (Target.mk 2 1500 (-5)) (by decide)).2.1,
   (run_targets_validated mainCalls (by decide) (Target.mk 2 1500 (-5)) (by decide)).2.2.1,
   (run_targets_validated mainCalls (by decide) (Target.mk 2 1500 (-5)) (by decide)).2.2.2
     ctor⟩

/-! ### The priority check -/

/-- The lines `addTarget` writes to `std::cerr`, by the outcome of the range test alone. -/
theorem MissileController.addTarget_cerr (self : MissileController) (id : Int) (distance : Nat)
    (priority : Int) :
    (addTarget self id distance priority).cerr =
      if Cxx.usub distance 1000 > 5000 then ["Target out of range\n"] else [] := by
  unfold addTarget
  rw [if_neg (not_priority_guard priority)]
  by_cases h : Cxx.usub distance 1000 > 5000 <;> simp [h]

/-- C10: the priority check of `addTarget` never fires. Its condition
`priority < 0 && priority > 10` is false for every priority, the line
`Invalid priority level` is never written, and two calls that differ only in the priority
return the same boolean; `addTarget(1, 3000, -100)` and `addTarget(1, 3000, 100)` both
return true. -/
theorem MissileController.addTarget_priority_check_vacuous (self : MissileController)
    (id : Int) (distance : Nat) (p1 p2 : Int) :
    (addTarget self id distance p1).ret = (addTarget self id distance p2).ret
    ∧ ¬ (p1 < 0 ∧ p1 > 10)
    ∧ "Invalid priority level\n" ∉ (addTarget self id distance p1).cerr
    ∧ (addTarget self 1 3000 (-100)).ret = true
    ∧ (addTarget self 1 3000 100).ret = true := by
  refine ⟨?_, not_priority_guard p1, ?_, ?_, ?_⟩
  · rw [addTarget_ret, addTarget_ret]
  · rw [addTarget_cerr]
    split
    · decide
    · exact List.not_mem_nil _
  · rw [addTarget_ret]; decide
  · rw [addTarget_ret]; decide

/-! ### The warhead buffer -/

theorem MissileController.warheadBytes_allocateWarheadBuffer (self : MissileController)
    (count : Nat) :
    warheadBytes (allocateWarheadBuffer self count).self
      = some (List.replicate ((count * 8) % 4294967296) 0) := by
  simp [warheadBytes, allocateWarheadBuffer, Utils.calculateWarheadMemory, Cxx.umul_eight,
    List.getD_eq_getElem?_getD]

/-- C11: after `allocateWarheadBuffer(count)` the pointer `warheadBuffer` is not null, the
block it points to is live, has exactly the recorded `(count * 8) mod 2^32` bytes, and
every byte is zero. When that size is 0 (`count = 0`, `count = 536870912`) the pointer is
still not null and the block is the empty block. -/
theorem MissileController.allocateWarheadBuffer_block_zeroed (self : MissileController)
    (count : Nat) :
    (allocateWarheadBuffer self count).self.warheadBuffer ≠ none
    ∧ (∃ bytes, warheadBytes (allocateWarheadBuffer self count).self = some bytes
        ∧ bytes.length = (allocateWarheadBuffer self count).self.warheadBufferSize
        ∧ bytes.length = (count * 8) % 4294967296
        ∧ ∀ b ∈ bytes, b = 0)
    ∧ (allocateWarheadBuffer self 0).self.warheadBufferSize = 0
    ∧ (allocateWarheadBuffer self 0).self.warheadBuffer ≠ none
    ∧ warheadBytes (allocateWarheadBuffer self 0).self = some []
    ∧ (allocateWarheadBuffer self 536870912).self.warheadBufferSize = 0
    ∧ (allocateWarheadBuffer self 536870912).self.warheadBuffer ≠ none
    ∧ warheadBytes (allocateWarheadBuffer self 536870912).self = some [] := by
  have hnull : ∀ n, (allocateWarheadBuffer self n).self.warheadBuffer ≠ none := by
    intro n h
    cases h
  refine ⟨hnull count, ⟨_, warheadBytes_allocateWarheadBuffer self count, ?_, ?_, ?_⟩,
    ?_, hnull 0, ?_, ?_, hnull 536870912, ?_⟩
  · simp only [allocateWarheadBuffer, Utils.calculateWarheadMemory, Cxx.umul_eight,
      List.length_replicate]
  · exact List.length_replicate _ _
  · intro b hb
    exact List.eq_of_mem_replicate hb
  · simp only [allocateWarheadBuffer, Utils.calculateWarheadMemory, Cxx.umul_eight]
  · rw [warheadBytes_allocateWarheadBuffer]; rfl
  · simp only [allocateWarheadBuffer, Utils.calculateWarheadMemory, Cxx.umul_eight]
  · rw [warheadBytes_allocateWarheadBuffer]; rfl

/-- C12: `engageTargets` is a read. It leaves the object (target sequence, buffer pointer,
buffer size, free store) unchanged, so a second call yields the same reports and prints
the same lines as the first. After registering `{id=3, distance=3000, priority=7}` both
calls report `{id=3, statusCode=7, truncatedDistance=3000, finalDistance=2464}`. -/
theorem MissileController.engageTargets_idempotent_read (self : MissileController) :
    (engageTargets self).self = self
    ∧ (engageTargets self).self.targets = self.targets
    ∧ (engageTargets self).self.warheadBuffer = self.warheadBuffer
    ∧ (engageTargets self).self.warheadBufferSize = self.warheadBufferSize
    ∧ warheadBytes (engageTargets self).self = warheadBytes self
    ∧ (engageTargets (engageTargets self).self).reports = (engageTargets self).reports
    ∧ (engageTargets (engageTargets self).self).cout = (engageTargets self).cout
    ∧ (addTarget ctor 3 3000 7).ret = true
    ∧ (engageTargets (addTarget ctor 3 3000 7).self).reports
        = [EngagementReport.mk 3 7 3000 2464]
    ∧ (engageTargets (engageTargets (addTarget ctor 3 3000 7).self).self).reports
        = [EngagementReport.mk 3 7 3000 2464] :=
  ⟨rfl, rfl, rfl, rfl, rfl, rfl, rfl, by decide, by decide, by decide⟩

theorem MissileController.liveBlocks_append_live (freeStore : List (Option (List Nat)))
    (bytes : List Nat) : liveBlocks (freeStore ++ [some bytes]) = liveBlocks freeStore + 1 := by
  simp [liveBlocks, List.filter_append]

/-- C13 (the code does not do this): `allocateWarheadBuffer` releases nothing. Every call
adds one live block and leaves the blocks that were live before live, so two calls on a
fresh controller leave two live blocks, the first of them no longer pointed to; the
destructor then releases only the second, and one block stays live. -/
theorem MissileController.allocateWarheadBuffer_leaks_previous_block
    (self : MissileController) (count : Nat) :
    liveBlocks (allocateWarheadBuffer self count).self.freeStore
        = liveBlocks self.freeStore + 1
    ∧ liveBlocks (run ctor [.allocateWarheadBuffer 10]).freeStore = 1
    ∧ liveBlocks (run ctor [.allocateWarheadBuffer 10, .allocateWarheadBuffer 10]).freeStore
        = 2
    ∧ (run ctor [.allocateWarheadBuffer 10, .allocateWarheadBuffer 10]).warheadBuffer
        = some 1
    ∧ (run ctor [.allocateWarheadBuffer 10, .allocateWarheadBuffer 10]).freeStore.getD 0 none
        = some (List.replicate 80 0)
    ∧ liveBlocks (dtor (run ctor [.allocateWarheadBuffer 10, .allocateWarheadBuffer 10]))
        = 1 := by
  refine ⟨?_, by decide, by decide, by decide, by decide, by decide⟩
  simp only [allocateWarheadBuffer, liveBlocks_append_live]

/-! ### The fresh controller -/

theorem MissileController.call_keeps_buffer (self : MissileController) (k : Call)
    (hk : k.isAllocate = false) :
    (call self k).warheadBuffer = self.warheadBuffer
    ∧ (call self k).warheadBufferSize = self.warheadBufferSize
    ∧ (call self k).freeStore = self.freeStore := by
  cases k with
  | addTarget id distance priority =>
    show (addTarget self id distance priority).self.warheadBuffer = _
      ∧ (addTarget self id distance priority).self.warheadBufferSize = _
      ∧ (addTarget self id distance priority).self.freeStore = _
    rw [addTarget_self]
    split <;> exact ⟨rfl, rfl, rfl⟩
  | allocateWarheadBuffer warheadCount => cases hk
  | engageTargets => exact ⟨rfl, rfl, rfl⟩

theorem MissileController.run_keeps_buffer (calls : List Call) :
    ∀ self : MissileController, (∀ k ∈ calls, k.isAllocate = false) →
      (run self calls).warheadBuffer = self.warheadBuffer
      ∧ (run self calls).warheadBufferSize = self.warheadBufferSize
      ∧ (run self calls).freeStore = self.freeStore := by
  induction calls with
  | nil => intro self _; exact ⟨rfl, rfl, rfl⟩
  | cons k ks ih =>
    intro self h
    obtain ⟨h1, h2, h3⟩ := ih (call self k) (fun j hj => h j (List.mem_cons_of_mem _ hj))
    obtain ⟨g1, g2, g3⟩ := call_keeps_buffer self k (h k (List.mem_cons_self _ _))
    exact ⟨h1.trans g1, h2.trans g2, h3.trans g3⟩

/-- C14: a freshly constructed controller has no target, a null buffer pointer, nothing
allocated and the recorded buffer size 0, and `engageTargets` on it yields no report and
prints nothing. As long as `allocateWarheadBuffer` has not been called (any calls of the
other two operations), the pointer stays null and the recorded size stays 0. -/
theorem MissileController.ctor_fresh_state (calls : List Call)
    (hcalls : ∀ k ∈ calls, k.isAllocate = false) :
    ctor.targets = [] ∧ ctor.warheadBuffer = none ∧ warheadBytes ctor = none
    ∧ ctor.freeStore = [] ∧ ctor.warheadBufferSize = 0
    ∧ (engageTargets ctor).reports = [] ∧ (engageTargets ctor).cout = []
    ∧ (run ctor calls).warheadBufferSize = 0
    ∧ (run ctor calls).warheadBuffer = none
    ∧ warheadBytes (run ctor calls) = none := by
  obtain ⟨h1, h2, -⟩ := run_keeps_buffer calls ctor hcalls
  refine ⟨rfl, rfl, rfl, rfl, rfl, rfl, rfl, h2, h1, ?_⟩
  unfold warheadBytes
  rw [h1]
  rfl

/-- Instance of C14 at the calls `main` makes before `allocateWarheadBuffer`, followed by
`engageTargets`. -/
theorem MissileController.ctor_fresh_state_witness :
    (∀ k ∈ [Call.addTarget 1 800 5, Call.addTarget 2 1500 (-5), Call.addTarget 3 3000 7,
        Call.engageTargets], k.isAllocate = false)
    ∧ (run ctor [Call.addTarget 1 800 5, Call.addTarget 2 1500 (-5), Call.addTarget 3 3000 7,
        Call.engageTargets]).warheadBufferSize = 0
    ∧ (run ctor [Call.addTarget 1 800 5, Call.addTarget 2 1500 (-5), Call.addTarget 3 3000 7,
        Call.engageTargets]).warheadBuffer = none :=
  ⟨by decide,
   (ctor_fresh_state [Call.addTarget 1 800 5, Call.addTarget 2 1500 (-5),
      Call.addTarget 3 3000 7, Call.engageTargets] (by decide)).2.2.2.2.2.2.2.1,
   (ctor_fresh_state [Call.addTarget 1 800 5, Call.addTarget 2 1500 (-5),
      Call.addTarget 3 3000 7, Call.engageTargets] (by decide)).2.2.2.2.2.2.2.2.1⟩

/-! ### Negative priorities -/

/-- C15 (the code does not do this): a stored target of negative priority is engaged like
any other. The call `addTarget(2, 1500, -5)` of `main` is accepted, and `engageTargets`
then reports that target with status code 4294967291 and final distance 964 and prints
both lines for it. -/
theorem MissileController.negative_priority_is_engaged :
    (addTarget ctor 2 1500 (-5)).ret = true
    ∧ (addTarget ctor 2 1500 (-5)).self.targets = [Target.mk 2 1500 (-5)]
    ∧ (engageTargets (addTarget ctor 2 1500 (-5)).self).reports
        = [EngagementReport.mk 2 4294967291 1500 964]
    ∧ (engageTargets (addTarget ctor 2 1500 (-5)).self).cout
        = ["Target 2 status code: 4294967291\n", "Final Distance (wrap-around): 964\n"] :=
  ⟨by decide, by decide, by decide, by decide⟩

/-! ### Accepted targets -/

/-- An `unsigned int` distance that passes the range test lies in `[1000, 6000]`. -/
theorem Cxx.range_of_usub_le (d : Nat) (hd : Cxx.isUInt d) (h : Cxx.usub d 1000 ≤ 5000) :
    1000 ≤ d ∧ d ≤ 6000 := by
  unfold Cxx.isUInt at hd
  unfold Cxx.usub Cxx.toUInt at h
  omega

/-- The report of the loop body on a target whose distance lies in `[1000, 6000]`. -/
theorem MissileController.processTarget_in_range (t : Target)
    (h : 1000 ≤ t.distanceMeters ∧ t.distanceMeters ≤ 6000) :
    (processTarget t).truncatedDistance = t.distanceMeters
    ∧ (processTarget t).truncatedDistance + 65000 = (processTarget t).finalDistance + 65536
    ∧ (processTarget t).finalDistance = t.distanceMeters - 536
    ∧ 464 ≤ (processTarget t).finalDistance ∧ (processTarget t).finalDistance ≤ 5464
    ∧ (processTarget t).finalDistance < t.distanceMeters := by
  rw [processTarget_eq]
  show t.distanceMeters % 65536 = t.distanceMeters
    ∧ t.distanceMeters % 65536 + 65000 = (t.distanceMeters % 65536 + 65000) % 65536 + 65536
    ∧ (t.distanceMeters % 65536 + 65000) % 65536 = t.distanceMeters - 536
    ∧ 464 ≤ (t.distanceMeters % 65536 + 65000) % 65536
    ∧ (t.distanceMeters % 65536 + 65000) % 65536 ≤ 5464
    ∧ (t.distanceMeters % 65536 + 65000) % 65536 < t.distanceMeters
  omega

/-- C16: for every target `addTarget` accepted, and so for every stored target of a state
reached from a fresh controller, the report of `engageTargets` has
`truncatedDistance = distanceMeters` (nothing is lost), the sum `truncatedDistance + 65000`
exceeds the final distance by exactly one `65536` (one wrap), and
`finalDistance = distanceMeters - 536`, which lies in `[464, 5464]` and is below
`distanceMeters`. No stored target has `distanceMeters = 70000`: `addTarget` rejects that
distance. -/
theorem MissileController.accepted_target_wraps_once (calls : List Call)
    (hcalls : ∀ k ∈ calls, k.WellTyped) :
    List.Forall₂
        (fun t r => r.truncatedDistance = t.distanceMeters
          ∧ r.truncatedDistance + 65000 = r.finalDistance + 65536
          ∧ r.finalDistance = t.distanceMeters - 536
          ∧ 464 ≤ r.finalDistance ∧ r.finalDistance ≤ 5464
          ∧ r.finalDistance < t.distanceMeters
          ∧ t.distanceMeters ≠ 70000)
        (run ctor calls).targets (engageTargets (run ctor calls)).reports
    ∧ (∀ (id : Int) (distance : Nat) (priority : Int), Cxx.isUInt distance →
        (addTarget (run ctor calls) id distance priority).ret = true →
          (processTarget (Target.mk id distance priority)).truncatedDistance = distance
          ∧ (processTarget (Target.mk id distance priority)).truncatedDistance + 65000
              = (processTarget (Target.mk id distance priority)).finalDistance + 65536
          ∧ (processTarget (Target.mk id distance priority)).finalDistance = distance - 536
          ∧ 464 ≤ (processTarget (Target.mk id distance priority)).finalDistance
          ∧ (processTarget (Target.mk id distance priority)).finalDistance ≤ 5464
          ∧ (processTarget (Target.mk id distance priority)).finalDistance < distance
          ∧ distance ≠ 70000)
    ∧ (∀ (id priority : Int), (addTarget (run ctor calls) id 70000 priority).ret = false) := by
  refine ⟨engageTargets_forall₂ _ _ fun t ht => ?_, ?_, ?_⟩
  · obtain ⟨hu, hr⟩ := validated_run calls ctor validated_ctor hcalls t ht
    have hrange := Cxx.range_of_usub_le t.distanceMeters hu hr
    obtain ⟨h1, h2, h3, h4, h5, h6⟩ := processTarget_in_range t hrange
    exact ⟨h1, h2, h3, h4, h5, h6, by omega⟩
  · intro id distance priority hd hacc
    have hrange := (addTarget_accepts_iff _ id distance priority hd).mp hacc
    obtain ⟨h1, h2, h3, h4, h5, h6⟩ :=
      processTarget_in_range (Target.mk id distance priority) hrange
    exact ⟨h1, h2, h3, h4, h5, h6, by omega⟩
  · intro id priority
    rw [addTarget_ret]
    decide

/-- Instance of C16 at the calls of `main`: the two stored targets, of distances 1500 and
3000, are reported with final distances 964 and 2464. -/
theorem MissileController.accepted_target_wraps_once_witness :
    (∀ k ∈ mainCalls, k.WellTyped)
    ∧ (engageTargets (run ctor mainCalls)).reports.map EngagementReport.finalDistance
        = [964, 2464]
    ∧ List.Forall₂
        (fun t r => r.truncatedDistance = t.distanceMeters
          ∧ r.truncatedDistance + 65000 = r.finalDistance + 65536
          ∧ r.finalDistance = t.distanceMeters - 536
          ∧ 464 ≤ r.finalDistance ∧ r.finalDistance ≤ 5464
          ∧ r.finalDistance < t.distanceMeters
          ∧ t.distanceMeters ≠ 70000)
        (run ctor mainCalls).targets (engageTargets (run ctor mainCalls)).reports :=
  ⟨by decide, by decide, (accepted_target_wraps_once mainCalls (by decide)).1⟩
